import Mathlib

/-!
Shallow embedding of the meed-dashboard filter/aggregation core:
`src/data_loader.py` (`load_all_data`) and `src/app.py` (`main_dashboard`,
`show_project_details`).

Modelling conventions, stated once:
* pandas monetary/quantity floats are modelled as exact rationals (`ℚ`);
* a raw spreadsheet cell is either a value that numeric/date coercion
  accepts or a value it rejects (`RawCell.unparseable`), matching
  `pd.to_numeric(..., errors="coerce")` / `pd.to_datetime(..., errors="coerce")`;
* nullable columns (`NaN` entries) are `Option` fields;
* pandas sorts (`sort_values`, `groupby(sort=True)`, `Series.mode`) are
  modelled with `List.insertionSort` (deterministic); pandas makes no
  stability promise for `sort_values` (quicksort), so nothing proved here
  relies on tie order beyond what a deterministic model forces;
* `List.dedup` stands in for pandas `unique()` (same set of values; the
  claims proved here never depend on which occurrence survives);
* `str.contains` is modelled as literal substring containment, which is
  what the pandas regex containment computes for metacharacter-free needles.
-/

namespace Meed

/-- A raw spreadsheet cell destined for a typed column: either a value the
pandas coercion parses to `α`, or one it rejects (strings, blanks, ...). -/
inductive RawCell (α : Type) where
  | parsed (a : α)
  | unparseable
  deriving DecidableEq

/-- Pandas `pd.to_numeric(col, errors="coerce")`: failures become `NaN` (`none`). -/
def to_numeric_coerce {α : Type} (c : RawCell α) : Option α :=
  match c with
  | .parsed a => some a
  | .unparseable => none

/-- Pandas `pd.to_datetime(col, errors="coerce")`: failures become `NaT` (`none`).
Dates are modelled as integers (ordered timestamps). -/
def to_datetime_coerce (c : RawCell Int) : Option Int :=
  match c with
  | .parsed a => some a
  | .unparseable => none

/-- The `.fillna(0)` step applied after numeric coercion of a money/quantity column. -/
def fillna_zero (o : Option ℚ) : ℚ := o.getD 0

/-- The composite `pd.to_numeric(col, errors="coerce").fillna(0)` (data_loader.py lines
22-26 and 55-56): the cleaning applied to monetary and `Quantity` columns. -/
def clean_money (c : RawCell ℚ) : ℚ := fillna_zero (to_numeric_coerce c)

/-- A normalized `Projects` row (after column renaming to `New_ProjectId`). -/
structure Project where
  projectId : Nat
  name : Option String
  country : Option String
  sector : Option String
  projectStatus : Option String
  awardYear : Option Int
  completionYear : Option Int
  netValue : ℚ
  deriving DecidableEq

/-- A normalized `Projects with Roles` row. -/
structure Role where
  projectId : Nat
  role : Option String
  companyName : Option String
  contactName : Option String
  deriving DecidableEq

/-- A normalized `Projects with Products` row. -/
structure Product where
  projectId : Nat
  product : Option String
  quantity : ℚ
  deriving DecidableEq

/-- A normalized `Projects with Events` row. -/
structure Event where
  projectId : Nat
  eventDate : Option Int
  eventType : Option String
  deriving DecidableEq

/-- A raw `Projects` sheet row, before the loader's per-column cleaning. -/
structure RawProjectRow where
  projectId : Nat
  name : Option String
  country : Option String
  sector : Option String
  projectStatus : Option String
  awardYearRaw : RawCell Int
  completionYearRaw : RawCell Int
  netRaw : RawCell ℚ
  deriving DecidableEq

/-- A raw `Projects with Products` sheet row. -/
structure RawProductRow where
  projectId : Nat
  product : Option String
  quantityRaw : RawCell ℚ
  deriving DecidableEq

/-- A raw `Projects with Events` sheet row. -/
structure RawEventRow where
  projectId : Nat
  dateRaw : RawCell Int
  eventType : Option String
  deriving DecidableEq

/-- Per-row cleaning of the `Projects` sheet (data_loader.py lines 22-32):
money columns get `to_numeric(...).fillna(0)`, year columns get
`to_numeric(...)` with no fill. -/
def loadProjectRow (r : RawProjectRow) : Project :=
  { projectId := r.projectId
    name := r.name
    country := r.country
    sector := r.sector
    projectStatus := r.projectStatus
    awardYear := to_numeric_coerce r.awardYearRaw
    completionYear := to_numeric_coerce r.completionYearRaw
    netValue := clean_money r.netRaw }

/-- Per-row cleaning of the `Projects with Products` sheet
(data_loader.py lines 55-56). -/
def loadProductRow (r : RawProductRow) : Product :=
  { projectId := r.projectId
    product := r.product
    quantity := clean_money r.quantityRaw }

/-- Per-row cleaning of the `Projects with Events` sheet
(data_loader.py lines 47-48). -/
def loadEventRow (r : RawEventRow) : Event :=
  { projectId := r.projectId
    eventDate := to_datetime_coerce r.dateRaw
    eventType := r.eventType }

/-- The `Projects` part of `load_all_data`: every raw row yields exactly one
cleaned row; coercion failures never drop or abort rows. -/
def load_projects (rows : List RawProjectRow) : List Project :=
  rows.map loadProjectRow

/-- The `Products` part of `load_all_data`. -/
def load_products (rows : List RawProductRow) : List Product :=
  rows.map loadProductRow

/-- The `Events` part of `load_all_data`. -/
def load_events (rows : List RawEventRow) : List Event :=
  rows.map loadEventRow

/-- Predicate `startsWithChars pat s`: `pat` is a leading segment of `s`. -/
def startsWithChars : List Char → List Char → Bool
  | [], _ => true
  | _ :: _, [] => false
  | a :: as, b :: bs => a == b && startsWithChars as bs

/-- Predicate `containsChars pat s`: `pat` occurs contiguously inside `s`. -/
def containsChars (pat : List Char) : List Char → Bool
  | [] => pat.isEmpty
  | c :: tl => startsWithChars pat (c :: tl) || containsChars pat tl

/-- Literal substring containment, the meaning of `Series.str.contains` for a
metacharacter-free needle. -/
def strContains (s pat : String) : Bool := containsChars pat.data s.data

/-- ASCII lowercasing of one character (the fragment of Python `str.lower`
relevant to this data). -/
def lowerChar (c : Char) : Char :=
  if 'A' ≤ c ∧ c ≤ 'Z' then Char.ofNat (c.toNat + 32) else c

/-- Python `str.lower()` / pandas `Series.str.lower()`, modelled character-wise. -/
def strLower (s : String) : String := ⟨s.data.map lowerChar⟩

/-- The row predicate of app.py lines 194-197: lowered name contains the
(already lowered) term, or the stringified id contains it; `na=False` makes a
null name fail. -/
def searchMatches (t : String) (p : Project) : Bool :=
  (match p.name with
   | some n => strContains (strLower n) t
   | none => false)
  || strContains (toString p.projectId) t

/-- app.py lines 191-197: `if search_term:` (empty string is falsy), then
lower the term and filter. -/
def search_stage (t : String) (ps : List Project) : List Project :=
  if t == "" then ps else ps.filter (searchMatches (strLower t))

/-- Pandas `Series.isin(sel)` on a nullable string column: `NaN` never matches. -/
def isinOpt (v : Option String) (sel : List String) : Bool :=
  match v with
  | some s => sel.contains s
  | none => false

/-- Pandas `Series.isin(sel)` on the nullable `AwardYear` column. -/
def isinOptInt (v : Option Int) (sel : List Int) : Bool :=
  match v with
  | some i => sel.contains i
  | none => false

/-- The Role-row predicate of app.py lines 211-214:
`(Role == "Owner") & (CompanyName.isin(selected_clients))`. -/
def isOwnerFor (clients : List String) (r : Role) : Bool :=
  r.role == some "Owner" &&
    (match r.companyName with
     | some c => clients.contains c
     | none => false)

/-- app.py lines 211-214: candidate project ids of the selected owners
(`.unique()` modelled by `dedup`). -/
def ownerCandidateIds (rs : List Role) (clients : List String) : List Nat :=
  ((rs.filter (isOwnerFor clients)).map Role.projectId).dedup

/-- app.py lines 209-216: `if selected_clients and df_roles is not None:` —
the clause runs only when the client set is non-empty AND the Role collection
is present; otherwise the frame passes through unchanged. -/
def clientFilter (roles : Option (List Role)) (clients : List String)
    (ps : List Project) : List Project :=
  match roles with
  | none => ps
  | some rs =>
      if clients.isEmpty then ps
      else ps.filter (fun p => (ownerCandidateIds rs clients).contains p.projectId)

/-- The filter specification of app.py lines 150-185 (widget outputs). -/
structure FilterSpec where
  searchText : String
  countries : List String
  sectors : List String
  statuses : List String
  awardYears : List Int
  clients : List String
  deriving DecidableEq

/-- The specification with no active constraint on any dimension. -/
def FilterSpec.inactive : FilterSpec := ⟨"", [], [], [], [], []⟩

/-- One direct-field stage of app.py lines 199-206: `if selected_xs:` then
`df[df[col].isin(selected_xs)]`, else pass through. -/
def dim_stage {α : Type} (c : Bool) (q : α → Bool) (l : List α) : List α :=
  if c then l else l.filter q

/-- app.py lines 188-216: the filter pipeline applied to `df_projects`. -/
def applyFilters (spec : FilterSpec) (roles : Option (List Role))
    (ps : List Project) : List Project :=
  clientFilter roles spec.clients
    (dim_stage spec.awardYears.isEmpty
      (fun p => isinOptInt p.awardYear spec.awardYears)
      (dim_stage spec.statuses.isEmpty
        (fun p => isinOpt p.projectStatus spec.statuses)
        (dim_stage spec.sectors.isEmpty
          (fun p => isinOpt p.sector spec.sectors)
          (dim_stage spec.countries.isEmpty
            (fun p => isinOpt p.country spec.countries)
            (search_stage spec.searchText ps)))))

/-- The client clause as a row predicate (true when the clause is skipped). -/
def clientCond (roles : Option (List Role)) (cs : List String)
    (p : Project) : Bool :=
  match roles with
  | none => true
  | some rs => cs.isEmpty || (ownerCandidateIds rs cs).contains p.projectId

/-- The whole pipeline as one row predicate (conjunction of the clauses,
each clause trivially true when its dimension is inactive). -/
def matchesSpec (spec : FilterSpec) (roles : Option (List Role))
    (p : Project) : Bool :=
  clientCond roles spec.clients p &&
    ((spec.awardYears.isEmpty || isinOptInt p.awardYear spec.awardYears) &&
      ((spec.statuses.isEmpty || isinOpt p.projectStatus spec.statuses) &&
        ((spec.sectors.isEmpty || isinOpt p.sector spec.sectors) &&
          ((spec.countries.isEmpty || isinOpt p.country spec.countries) &&
            ((spec.searchText == "") ||
              searchMatches (strLower spec.searchText) p)))))

theorem list_filter_true {α : Type} (l : List α) :
    l.filter (fun _ => true) = l :=
  List.filter_eq_self.mpr (fun _ _ => rfl)

theorem filter_if_skip {α : Type} (c : Bool) (q : α → Bool) (l : List α) :
    (if c then l else l.filter q) = l.filter (fun x => c || q x) := by
  cases c
  · simp
  · simp [list_filter_true]

theorem dim_stage_eq {α : Type} (c : Bool) (q : α → Bool) (l : List α) :
    dim_stage c q l = l.filter (fun x => c || q x) :=
  filter_if_skip _ _ _

theorem search_stage_eq (t : String) (ps : List Project) :
    search_stage t ps
      = ps.filter (fun p => (t == "") || searchMatches (strLower t) p) :=
  filter_if_skip _ _ _

theorem clientFilter_eq (roles : Option (List Role)) (cs : List String)
    (ps : List Project) :
    clientFilter roles cs ps = ps.filter (clientCond roles cs) := by
  cases roles with
  | none => exact (list_filter_true ps).symm
  | some rs => exact filter_if_skip _ _ _

/-- The sequential pipeline equals a single filter by `matchesSpec`. -/
theorem applyFilters_eq_filter (spec : FilterSpec) (roles : Option (List Role))
    (ps : List Project) :
    applyFilters spec roles ps = ps.filter (matchesSpec spec roles) := by
  simp only [applyFilters, search_stage_eq, dim_stage_eq, clientFilter_eq,
    List.filter_filter]
  rfl

theorem filter_subset_filter {α : Type} (p q : α → Bool) (l : List α)
    (h : ∀ x, p x = true → q x = true) : l.filter p ⊆ l.filter q := by
  intro x hx
  rw [List.mem_filter] at hx ⊢
  exact ⟨hx.1, h x hx.2⟩

/-- Demo rows used by witnesses and counterexamples. -/
def demoProject1 : Project :=
  ⟨1, some "Dam Alpha", some "Kenya", some "Water", some "Active",
    some 2019, none, 10⟩

def demoProject2 : Project :=
  ⟨2, some "Grid Beta", some "Kenya", some "Power", some "Complete",
    some 2021, none, 5⟩

/-- C7: every filter result is a subset of the full Project list, and the
all-inactive specification (empty search text, all value sets empty) leaves
the list unchanged. -/
theorem C7_subset_identity (spec : FilterSpec) (roles : Option (List Role))
    (ps : List Project) :
    applyFilters spec roles ps ⊆ ps ∧
      (spec = FilterSpec.inactive → applyFilters spec roles ps = ps) := by
  constructor
  · rw [applyFilters_eq_filter]
    intro x hx
    exact (List.mem_filter.mp hx).1
  · rintro rfl
    rw [applyFilters_eq_filter]
    rw [List.filter_eq_self]
    intro p _
    cases roles <;> simp [matchesSpec, clientCond, FilterSpec.inactive]

/-- Concrete instantiation of `C7_subset_identity` at the inactive spec. -/
theorem C7_subset_identity_witness :
    applyFilters FilterSpec.inactive none [demoProject1] ⊆ [demoProject1] ∧
      applyFilters FilterSpec.inactive none [demoProject1] = [demoProject1] :=
  ⟨(C7_subset_identity FilterSpec.inactive none [demoProject1]).1,
   (C7_subset_identity FilterSpec.inactive none [demoProject1]).2 rfl⟩

/-- C10: activating one additional dimension (a search term, or a non-empty
value set on a previously unconstrained dimension) narrows the result:
the new filtered set is a subset of the old one. -/
theorem C10_monotone (spec : FilterSpec) (roles : Option (List Role))
    (ps : List Project) (t : String) (cs ss sts cls : List String)
    (ys : List Int) :
    (spec.searchText = "" →
      applyFilters { spec with searchText := t } roles ps
        ⊆ applyFilters spec roles ps) ∧
    (spec.countries = [] →
      applyFilters { spec with countries := cs } roles ps
        ⊆ applyFilters spec roles ps) ∧
    (spec.sectors = [] →
      applyFilters { spec with sectors := ss } roles ps
        ⊆ applyFilters spec roles ps) ∧
    (spec.statuses = [] →
      applyFilters { spec with statuses := sts } roles ps
        ⊆ applyFilters spec roles ps) ∧
    (spec.awardYears = [] →
      applyFilters { spec with awardYears := ys } roles ps
        ⊆ applyFilters spec roles ps) ∧
    (spec.clients = [] →
      applyFilters { spec with clients := cls } roles ps
        ⊆ applyFilters spec roles ps) := by
  refine ⟨?_, ?_, ?_, ?_, ?_, ?_⟩ <;> intro hdim <;>
    rw [applyFilters_eq_filter, applyFilters_eq_filter] <;>
    refine filter_subset_filter _ _ _ (fun x hx => ?_) <;>
    simp only [matchesSpec, Bool.and_eq_true] at hx ⊢ <;>
    obtain ⟨h1, h2, h3, h4, h5, h6⟩ := hx
  · exact ⟨h1, h2, h3, h4, h5, by simp [hdim]⟩
  · exact ⟨h1, h2, h3, h4, by simp [hdim], h6⟩
  · exact ⟨h1, h2, h3, by simp [hdim], h5, h6⟩
  · exact ⟨h1, h2, by simp [hdim], h4, h5, h6⟩
  · exact ⟨h1, by simp [hdim], h3, h4, h5, h6⟩
  · refine ⟨?_, h2, h3, h4, h5, h6⟩
    rw [hdim]
    cases roles <;> simp [clientCond]

/-- Concrete instantiation of `C10_monotone`: each dimension activated on top
of the inactive specification narrows the one-row demo list. -/
theorem C10_monotone_witness :
    (applyFilters { FilterSpec.inactive with searchText := "dam" } none
        [demoProject1] ⊆ applyFilters FilterSpec.inactive none [demoProject1]) ∧
    (applyFilters { FilterSpec.inactive with countries := ["Kenya"] } none
        [demoProject1] ⊆ applyFilters FilterSpec.inactive none [demoProject1]) ∧
    (applyFilters { FilterSpec.inactive with sectors := ["Water"] } none
        [demoProject1] ⊆ applyFilters FilterSpec.inactive none [demoProject1]) ∧
    (applyFilters { FilterSpec.inactive with statuses := ["Active"] } none
        [demoProject1] ⊆ applyFilters FilterSpec.inactive none [demoProject1]) ∧
    (applyFilters { FilterSpec.inactive with awardYears := [2019] } none
        [demoProject1] ⊆ applyFilters FilterSpec.inactive none [demoProject1]) ∧
    (applyFilters { FilterSpec.inactive with clients := ["AquaCorp"] } none
        [demoProject1] ⊆ applyFilters FilterSpec.inactive none [demoProject1]) := by
  have h := C10_monotone FilterSpec.inactive none [demoProject1] "dam"
    ["Kenya"] ["Water"] ["Active"] ["AquaCorp"] [2019]
  exact ⟨h.1 rfl, h.2.1 rfl, h.2.2.1 rfl, h.2.2.2.1 rfl, h.2.2.2.2.1 rfl,
    h.2.2.2.2.2 rfl⟩

theorem startsWithChars_iff (pat : List Char) :
    ∀ s : List Char, startsWithChars pat s = true ↔ ∃ t, s = pat ++ t := by
  induction pat with
  | nil =>
    intro s
    simp [startsWithChars]
  | cons a as ih =>
    intro s
    cases s with
    | nil => simp [startsWithChars]
    | cons b bs =>
      simp only [startsWithChars, Bool.and_eq_true, beq_iff_eq, ih,
        List.cons_append, List.cons.injEq]
      constructor
      · rintro ⟨rfl, t, rfl⟩
        exact ⟨t, rfl, rfl⟩
      · rintro ⟨t, rfl, rfl⟩
        exact ⟨rfl, t, rfl⟩

theorem containsChars_iff (pat : List Char) :
    ∀ s : List Char, containsChars pat s = true ↔
      ∃ l1 l2, s = l1 ++ pat ++ l2 := by
  intro s
  induction s with
  | nil =>
    simp only [containsChars, List.isEmpty_iff]
    constructor
    · rintro rfl
      exact ⟨[], [], rfl⟩
    · rintro ⟨l1, l2, h⟩
      rcases List.append_eq_nil.mp (List.append_eq_nil.mp h.symm).1 with ⟨-, h2⟩
      exact h2
  | cons c tl ih =>
    simp only [containsChars, Bool.or_eq_true, startsWithChars_iff, ih]
    constructor
    · rintro (⟨t, ht⟩ | ⟨l1, l2, rfl⟩)
      · exact ⟨[], t, by simpa using ht⟩
      · exact ⟨c :: l1, l2, rfl⟩
    · rintro ⟨l1, l2, h⟩
      cases l1 with
      | nil =>
        left
        exact ⟨l2, by simpa using h⟩
      | cons x xs =>
        right
        refine ⟨xs, l2, ?_⟩
        have := h
        simp only [List.cons_append, List.cons.injEq] at this
        exact this.2

theorem strContains_iff (s pat : String) :
    strContains s pat = true ↔ ∃ l1 l2, s.data = l1 ++ pat.data ++ l2 :=
  containsChars_iff pat.data s.data

theorem searchMatches_iff (t : String) (p : Project) :
    searchMatches t p = true ↔
      ((∃ n, p.name = some n ∧
          ∃ l1 l2, (strLower n).data = l1 ++ t.data ++ l2) ∨
        ∃ l1 l2, (toString p.projectId).data = l1 ++ t.data ++ l2) := by
  unfold searchMatches
  cases hn : p.name with
  | none => simp [strContains_iff, hn]
  | some n => simp [strContains_iff, hn]

/-- C2 (amended): a project passes the search stage iff it is in the input
and either the text is empty or the lowered text occurs as a contiguous
substring of the lowered project name or of the stringified projectId;
an EMPTY text imposes no constraint. (Amendment: a whitespace-only text is
NOT equivalent to absent — `if search_term:` only treats the empty string as
absent — and pandas applies the term as a regular expression, which for
metacharacter-free terms is this substring test.) -/
theorem C2_search_filter (t : String) (ps : List Project) (p : Project) :
    (p ∈ search_stage t ps ↔ p ∈ ps ∧ (t = "" ∨
      (∃ n, p.name = some n ∧
        ∃ l1 l2, (strLower n).data = l1 ++ (strLower t).data ++ l2) ∨
      (∃ l1 l2, (toString p.projectId).data = l1 ++ (strLower t).data ++ l2))) ∧
    search_stage "" ps = ps := by
  refine ⟨?_, by simp [search_stage]⟩
  by_cases ht : t = ""
  · subst ht
    simp [search_stage]
  · have ht' : (t == "") = false := by
      simpa using ht
    rw [search_stage, ht']
    simp only [Bool.false_eq_true, if_false, List.mem_filter,
      searchMatches_iff]
    constructor
    · rintro ⟨hp, hm⟩
      exact ⟨hp, Or.inr hm⟩
    · rintro ⟨hp, (h | hm)⟩
      · exact absurd h ht
      · exact ⟨hp, hm⟩

/-- Demo row for the search counterexample: name without any space. -/
def demoProjectAB : Project :=
  ⟨7, some "AB", some "Kenya", some "Water", some "Active",
    some 2019, none, 3⟩

/-- C2 counterexample: the whitespace-only search text `" "` is claimed to
impose no constraint, but the code applies it literally: the project named
`"AB"` (id 7) is filtered out, while the other filters alone keep it. -/
theorem C2_counterexample :
    applyFilters { FilterSpec.inactive with searchText := " " } none
        [demoProjectAB] = [] ∧
      applyFilters FilterSpec.inactive none [demoProjectAB] =
        [demoProjectAB] := by
  constructor <;> decide

/-- C1 (amended): when the Role collection is ABSENT the client/owner clause
is skipped entirely (the result is the unfiltered input, regardless of the
non-empty client set) — `if selected_clients and df_roles is not None:`;
when the Role collection is PRESENT but contains no qualifying Owner row
(here: present and empty) and the client set is non-empty, the candidate id
set is empty and the result is empty. -/
theorem C1_client_clause (cs : List String) (ps : List Project)
    (h : cs ≠ []) :
    applyFilters { FilterSpec.inactive with clients := cs } (some []) ps
        = [] ∧
      applyFilters { FilterSpec.inactive with clients := cs } none ps = ps := by
  have hcs : cs.isEmpty = false := by
    cases cs with
    | nil => exact absurd rfl h
    | cons a l => rfl
  constructor
  · simp [applyFilters, search_stage, dim_stage, clientFilter, hcs,
      ownerCandidateIds, List.contains, FilterSpec.inactive]
  · simp [applyFilters, search_stage, dim_stage, clientFilter,
      FilterSpec.inactive]

/-- Concrete instantiation of `C1_client_clause` with one client and one
project. -/
theorem C1_client_clause_witness :
    applyFilters { FilterSpec.inactive with clients := ["AquaCorp"] }
        (some []) [demoProject1] = [] ∧
      applyFilters { FilterSpec.inactive with clients := ["AquaCorp"] }
        none [demoProject1] = [demoProject1] :=
  C1_client_clause ["AquaCorp"] [demoProject1] (by simp)

/-- C1 counterexample: Role collection absent, client set non-empty — the
claim says the filtered result must be empty, but the code skips the clause
and returns the full (non-empty) project list. -/
theorem C1_counterexample :
    applyFilters { FilterSpec.inactive with clients := ["AquaCorp"] } none
        [demoProject1] = [demoProject1] ∧
      [demoProject1] ≠ ([] : List Project) := by
  exact ⟨rfl, by simp⟩

/-- app.py line 224: `total_value = df_filtered["Net Project Value ($m)"].sum()`. -/
def total_value (ps : List Project) : ℚ := (ps.map Project.netValue).sum

/-- app.py line 225: `total_count = len(df_filtered)`. -/
def total_count (ps : List Project) : Nat := ps.length

/-- Pandas `Series.mean()` on a non-empty numeric column (NaN-free after cleaning). -/
def seriesMean (l : List ℚ) : ℚ := l.sum / (l.length : ℚ)

/-- app.py line 226: `avg_value = df[...].mean() if total_count > 0 else 0`. -/
def avg_value (ps : List Project) : ℚ :=
  if 0 < total_count ps then seriesMean (ps.map Project.netValue) else 0

/-- C8: the KPI total equals the sum of `netValue` over exactly the filtered
rows, and the average equals total/count when the count is positive and `0`
when the count is zero. -/
theorem C8_kpi (ps : List Project) :
    total_value ps = (ps.map Project.netValue).sum ∧
      (0 < total_count ps →
        avg_value ps = total_value ps / (total_count ps : ℚ)) ∧
      (total_count ps = 0 → avg_value ps = 0) := by
  refine ⟨rfl, ?_, ?_⟩
  · intro h
    rw [avg_value, if_pos h, seriesMean, total_value]
    rw [List.length_map]
    rfl
  · intro h
    rw [avg_value, if_neg]
    omega

/-- Concrete instantiation of `C8_kpi` on a two-row and a zero-row subset. -/
theorem C8_kpi_witness :
    avg_value [demoProject1, demoProject2]
        = total_value [demoProject1, demoProject2]
          / (total_count [demoProject1, demoProject2] : ℚ) ∧
      avg_value [] = 0 :=
  ⟨(C8_kpi [demoProject1, demoProject2]).2.1 (by decide),
   (C8_kpi []).2.2 rfl⟩

/-- Code-point lexicographic comparison of character lists: the order Python
uses to compare strings (and hence the order pandas sorts by). -/
def charsLe : List Char → List Char → Bool
  | [], _ => true
  | _ :: _, [] => false
  | a :: as, b :: bs => if a == b then charsLe as bs else decide (a.toNat < b.toNat)

/-- Python's `<=` on strings: code-point lexicographic. -/
def strLe (s t : String) : Prop := charsLe s.data t.data = true

instance : DecidableRel strLe :=
  fun s t => inferInstanceAs (Decidable (charsLe s.data t.data = true))

theorem char_toNat_inj {a b : Char} (h : a.toNat = b.toNat) : a = b := by
  apply Char.ext
  unfold Char.toNat at h
  exact UInt32.toNat.inj h

theorem charsLe_refl : ∀ s : List Char, charsLe s s = true := by
  intro s
  induction s with
  | nil => rfl
  | cons a as ih => simpa [charsLe] using ih

theorem charsLe_total : ∀ s t : List Char,
    charsLe s t = true ∨ charsLe t s = true := by
  intro s
  induction s with
  | nil => intro t; left; rfl
  | cons a as ih =>
    intro t
    cases t with
    | nil => right; rfl
    | cons b bs =>
      by_cases hab : a = b
      · subst hab
        simpa [charsLe] using ih bs
      · have h1 : (a == b) = false := beq_eq_false_iff_ne.mpr hab
        have h2 : (b == a) = false := beq_eq_false_iff_ne.mpr (Ne.symm hab)
        have hne : a.toNat ≠ b.toNat := fun hn => hab (char_toNat_inj hn)
        rcases Nat.lt_or_ge a.toNat b.toNat with h | h
        · left
          simp [charsLe, h1, h]
        · right
          have hlt : b.toNat < a.toNat :=
            lt_of_le_of_ne h (fun hh => hne hh.symm)
          simp [charsLe, h2, hlt]

theorem charsLe_trans : ∀ s t u : List Char,
    charsLe s t = true → charsLe t u = true → charsLe s u = true := by
  intro s
  induction s with
  | nil => intro t u _ _; rfl
  | cons a as ih =>
    intro t u hst htu
    cases t with
    | nil => simp [charsLe] at hst
    | cons b bs =>
      cases u with
      | nil => simp [charsLe] at htu
      | cons c cs =>
        by_cases hab : a = b <;> by_cases hbc : b = c
        · subst hab
          subst hbc
          simp only [charsLe, beq_self_eq_true, if_true] at hst htu ⊢
          exact ih bs cs hst htu
        · subst hab
          simp only [charsLe, beq_self_eq_true, if_true] at hst
          simp only [charsLe, beq_eq_false_iff_ne.mpr hbc,
            Bool.false_eq_true, if_false, decide_eq_true_eq] at htu ⊢
          exact htu
        · subst hbc
          have h1 : (a == b) = false := beq_eq_false_iff_ne.mpr hab
          simp only [charsLe, h1, Bool.false_eq_true, if_false,
            decide_eq_true_eq] at hst
          simp only [charsLe, beq_eq_false_iff_ne.mpr hab,
            Bool.false_eq_true, if_false, decide_eq_true_eq]
          exact hst
        · have h1 : (a == b) = false := beq_eq_false_iff_ne.mpr hab
          have h2 : (b == c) = false := beq_eq_false_iff_ne.mpr hbc
          simp only [charsLe, h1, Bool.false_eq_true, if_false,
            decide_eq_true_eq] at hst
          simp only [charsLe, h2, Bool.false_eq_true, if_false,
            decide_eq_true_eq] at htu
          have hac : a.toNat < c.toNat := lt_trans hst htu
          have hne : (a == c) = false :=
            beq_eq_false_iff_ne.mpr (fun h => absurd (h ▸ hac) (lt_irrefl _))
          simp [charsLe, hne, hac]

instance : IsTotal String strLe :=
  ⟨fun s t => charsLe_total s.data t.data⟩

instance : IsTrans String strLe :=
  ⟨fun s t u => charsLe_trans s.data t.data u.data⟩

theorem strLe_refl (s : String) : strLe s s := charsLe_refl s.data

/-- The values of maximal frequency in `l` (what `Series.mode` collects,
before it sorts them). -/
def modesOf (l : List String) : List String :=
  l.dedup.filter (fun v => l.all (fun w => decide (l.count w ≤ l.count v)))

/-- Pandas `Series.mode()` (dropna): the maximal-frequency values, sorted
ascending — pandas documents that "the modes are sorted". -/
def seriesMode (l : List String) : List String :=
  (modesOf l).insertionSort strLe

/-- app.py line 227:
`top_sector = df_filtered["Sector"].mode()[0] if not df_filtered.empty else "N/A"`.
`none` models the `KeyError` raised by `[0]` when the subset is non-empty but
every `Sector` value is null (mode of an all-NaN column is empty). -/
def top_sector (ps : List Project) : Option String :=
  if ps.isEmpty then some "N/A"
  else (seriesMode (ps.filterMap Project.sector)).head?

theorem sorted_head_min {l : List String} {m : String}
    (hs : List.Sorted strLe l) (hh : l.head? = some m) :
    ∀ v ∈ l, strLe m v := by
  obtain ⟨tl, rfl⟩ := List.head?_eq_some_iff.mp hh
  intro v hv
  rcases List.mem_cons.mp hv with rfl | hv
  · exact strLe_refl v
  · exact (List.sorted_cons.mp hs).1 v hv

/-- C3 (amended): the modal-sector KPI is `"N/A"` on the empty subset, and on
a non-empty subset any returned value is a most frequent non-null `Sector`
value; ties are broken by the LEAST value in the string order (pandas
`mode()` sorts the modes and `[0]` takes the smallest), not by
first-encountered iteration order. -/
theorem C3_top_sector (ps : List Project) :
    (ps = [] → top_sector ps = some "N/A") ∧
      (∀ m, top_sector ps = some m → ps ≠ [] →
        m ∈ ps.filterMap Project.sector ∧
          (∀ w ∈ ps.filterMap Project.sector,
            (ps.filterMap Project.sector).count w
              ≤ (ps.filterMap Project.sector).count m) ∧
          (∀ v ∈ ps.filterMap Project.sector,
            (∀ w ∈ ps.filterMap Project.sector,
              (ps.filterMap Project.sector).count w
                ≤ (ps.filterMap Project.sector).count v) → strLe m v)) := by
  constructor
  · rintro rfl
    rfl
  · intro m hm hne
    have hpe : ps.isEmpty = false := by
      cases ps with
      | nil => exact absurd rfl hne
      | cons a l => rfl
    rw [top_sector, hpe] at hm
    simp only [Bool.false_eq_true, if_false] at hm
    have hsort : List.Sorted strLe (seriesMode (ps.filterMap Project.sector)) :=
      List.sorted_insertionSort _ _
    have hmem : m ∈ seriesMode (ps.filterMap Project.sector) := by
      obtain ⟨tl, htl⟩ := List.head?_eq_some_iff.mp hm
      rw [htl]
      exact List.mem_cons_self _ _
    have hmodes : m ∈ modesOf (ps.filterMap Project.sector) :=
      (List.perm_insertionSort _ _).mem_iff.mp hmem
    rw [modesOf, List.mem_filter] at hmodes
    obtain ⟨hmd, hall⟩ := hmodes
    have hcnt : ∀ w ∈ ps.filterMap Project.sector,
        (ps.filterMap Project.sector).count w
          ≤ (ps.filterMap Project.sector).count m := by
      intro w hw
      have := List.all_eq_true.mp hall w hw
      exact of_decide_eq_true this
    refine ⟨List.mem_dedup.mp hmd, hcnt, ?_⟩
    intro v hv hvmax
    have hvmodes : v ∈ modesOf (ps.filterMap Project.sector) := by
      rw [modesOf, List.mem_filter]
      refine ⟨List.mem_dedup.mpr hv, List.all_eq_true.mpr ?_⟩
      intro w hw
      exact decide_eq_true (hvmax w hw)
    have hvsorted : v ∈ seriesMode (ps.filterMap Project.sector) :=
      (List.perm_insertionSort _ _).mem_iff.mpr hvmodes
    exact sorted_head_min hsort hm v hvsorted

/-- Concrete instantiation of `C3_top_sector`: on the one-row subset the
modal sector is its unique sector value. -/
theorem C3_top_sector_witness :
    "Water" ∈ [demoProject1].filterMap Project.sector ∧
      (∀ w ∈ [demoProject1].filterMap Project.sector,
        ([demoProject1].filterMap Project.sector).count w
          ≤ ([demoProject1].filterMap Project.sector).count "Water") ∧
      (∀ v ∈ [demoProject1].filterMap Project.sector,
        (∀ w ∈ [demoProject1].filterMap Project.sector,
          ([demoProject1].filterMap Project.sector).count w
            ≤ ([demoProject1].filterMap Project.sector).count v) →
        strLe "Water" v) :=
  (C3_top_sector [demoProject1]).2 "Water" (by decide) (by decide)

/-- C3 counterexample: sectors `["Water", "Power"]` are tied (one occurrence
each) with `"Water"` encountered first, yet the code returns `"Power"` —
`mode()` sorts the tied modes and `[0]` takes the alphabetically least, not
the first-encountered value. -/
theorem C3_counterexample :
    top_sector [demoProject1, demoProject2] = some "Power" ∧
      [demoProject1, demoProject2].filterMap Project.sector
        = ["Water", "Power"] ∧
      ([demoProject1, demoProject2].filterMap Project.sector).count "Water"
        = ([demoProject1, demoProject2].filterMap Project.sector).count "Power" ∧
      "Power" ≠ "Water" := by
  refine ⟨by decide, by decide, by decide, by decide⟩

/-- Pandas `df.groupby(key)[netValue].sum().reset_index()` (app.py lines 255, 269):
group keys are the distinct non-null values, sorted ascending
(`groupby(sort=True)`); each group carries the sum of `netValue` over its
rows. -/
def groupSumBy (key : Project → Option String) (ps : List Project) :
    List (String × ℚ) :=
  ((ps.filterMap key).dedup.insertionSort strLe).map
    (fun g => (g, ((ps.filter (fun p => key p == some g)).map
      Project.netValue).sum))

/-- app.py line 255: value grouped by `Country`. -/
def country_stats (ps : List Project) : List (String × ℚ) :=
  groupSumBy Project.country ps

/-- app.py line 269: value grouped by `Sector`. -/
def sector_stats (ps : List Project) : List (String × ℚ) :=
  groupSumBy Project.sector ps

theorem map_sum_filter_cons (q : Project → Bool) (p : Project)
    (tl : List Project) :
    (((p :: tl).filter q).map Project.netValue).sum
      = (if q p = true then p.netValue else 0)
        + ((tl.filter q).map Project.netValue).sum := by
  by_cases h : q p = true
  · simp [List.filter_cons, h]
  · simp [List.filter_cons, h]

theorem sum_group_rows (key : Project → Option String) (S : Finset String)
    (ps : List Project) (hcov : ∀ p ∈ ps, ∀ g, key p = some g → g ∈ S) :
    (∑ g ∈ S,
        ((ps.filter (fun p => key p == some g)).map Project.netValue).sum)
      = ((ps.filter (fun p => (key p).isSome)).map Project.netValue).sum := by
  induction ps with
  | nil => simp
  | cons p tl ih =>
    have htl : ∀ p' ∈ tl, ∀ g, key p' = some g → g ∈ S :=
      fun p' hp' => hcov p' (List.mem_cons_of_mem _ hp')
    simp only [map_sum_filter_cons]
    rw [Finset.sum_add_distrib, ih htl]
    cases hk : key p with
    | none => simp
    | some g0 =>
      have hg0 : g0 ∈ S := hcov p (List.mem_cons_self _ _) g0 hk
      have hcond : ∀ g ∈ S,
          (if ((some g0 : Option String) == some g) = true
            then p.netValue else 0)
            = (if g0 = g then p.netValue else 0) := by
        intro g _
        simp
      rw [Finset.sum_congr rfl hcond, Finset.sum_ite_eq, if_pos hg0]
      simp

theorem dedup_toFinset_eq {K : List String} :
    K.dedup.toFinset = K.toFinset := by
  apply Finset.ext
  intro a
  simp [List.mem_toFinset, List.mem_dedup]

/-- The second components of a `groupSumBy` table sum to the total `netValue`
of exactly the rows whose group key is non-null. -/
theorem groupSum_total (key : Project → Option String) (ps : List Project) :
    ((groupSumBy key ps).map Prod.snd).sum
      = ((ps.filter (fun p => (key p).isSome)).map Project.netValue).sum := by
  unfold groupSumBy
  rw [List.map_map]
  have hperm :=
    (List.perm_insertionSort strLe ((ps.filterMap key).dedup)).map
      (Prod.snd ∘ fun g => (g, ((ps.filter
        (fun p => key p == some g)).map Project.netValue).sum))
  rw [hperm.sum_eq]
  have hnodup := List.nodup_dedup (ps.filterMap key)
  rw [← List.sum_toFinset _ hnodup]
  rw [dedup_toFinset_eq]
  exact sum_group_rows key (ps.filterMap key).toFinset ps
    (fun p hp g hg => List.mem_toFinset.mpr (List.mem_filterMap.mpr ⟨p, hp, hg⟩))

/-- C5 (amended): the per-group sums of the country and sector tables add up
to the total `netValue` over the rows whose `Country` (resp. `Sector`) is
non-null — pandas `groupby` drops null keys, so a row with a null key is
counted in the overall total KPI but in no group. When every row of the
subset has a non-null key, the partition property against the total KPI
holds. -/
theorem C5_partition (ps : List Project) :
    ((country_stats ps).map Prod.snd).sum
        = ((ps.filter (fun p => p.country.isSome)).map Project.netValue).sum ∧
      ((sector_stats ps).map Prod.snd).sum
        = ((ps.filter (fun p => p.sector.isSome)).map Project.netValue).sum ∧
      ((∀ p ∈ ps, p.country.isSome) →
        ((country_stats ps).map Prod.snd).sum = total_value ps) ∧
      ((∀ p ∈ ps, p.sector.isSome) →
        ((sector_stats ps).map Prod.snd).sum = total_value ps) := by
  refine ⟨groupSum_total Project.country ps, groupSum_total Project.sector ps,
    ?_, ?_⟩
  · intro hall
    rw [country_stats, groupSum_total Project.country ps, total_value]
    rw [List.filter_eq_self.mpr hall]
  · intro hall
    rw [sector_stats, groupSum_total Project.sector ps, total_value]
    rw [List.filter_eq_self.mpr hall]

/-- Concrete instantiation of `C5_partition` on an all-keys-present subset. -/
theorem C5_partition_witness :
    ((country_stats [demoProject1, demoProject2]).map Prod.snd).sum
        = total_value [demoProject1, demoProject2] ∧
      ((sector_stats [demoProject1, demoProject2]).map Prod.snd).sum
        = total_value [demoProject1, demoProject2] :=
  ⟨(C5_partition [demoProject1, demoProject2]).2.2.1
      (by simp [demoProject1, demoProject2]),
   (C5_partition [demoProject1, demoProject2]).2.2.2
      (by simp [demoProject1, demoProject2])⟩

/-- Demo row with a null `Country` for the C5 counterexample. -/
def demoProjectNoCountry : Project :=
  ⟨9, some "Mystery Plant", none, some "Water", some "Active",
    some 2019, none, 10⟩

/-- C5 counterexample: a subset whose single row has a null `Country` — the
by-country group sums add to `0`, but the total-value KPI is `10`: the
partition property fails as stated. -/
theorem C5_counterexample :
    ((country_stats [demoProjectNoCountry]).map Prod.snd).sum = 0 ∧
      total_value [demoProjectNoCountry] = 10 ∧ (0 : ℚ) ≠ 10 := by
  refine ⟨?_, ?_, by norm_num⟩
  · simp [country_stats, groupSumBy, demoProjectNoCountry]
  · simp [total_value, demoProjectNoCountry]

/-- Descending-by-count order used by `value_counts()` before `head(10)`. -/
def descNat (a b : String × Nat) : Prop := b.2 ≤ a.2

/-- Descending-by-sum order used by `sort_values(ascending=False)` before
`head(15)`. -/
def descQ (a b : String × ℚ) : Prop := b.2 ≤ a.2

instance : DecidableRel descNat :=
  fun a b => inferInstanceAs (Decidable (b.2 ≤ a.2))

instance : DecidableRel descQ :=
  fun a b => inferInstanceAs (Decidable (b.2 ≤ a.2))

instance : IsTotal (String × Nat) descNat :=
  ⟨fun a b => le_total b.2 a.2⟩

instance : IsTrans (String × Nat) descNat :=
  ⟨fun _ _ _ hab hbc => le_trans hbc hab⟩

instance : IsTotal (String × ℚ) descQ :=
  ⟨fun a b => le_total b.2 a.2⟩

instance : IsTrans (String × ℚ) descQ :=
  ⟨fun _ _ _ hab hbc => le_trans hbc hab⟩

/-- Pandas `Series.value_counts()` (dropna): occurrence counts of the distinct
values, ordered by count descending (pandas sorts with no stability
guarantee; the deterministic model sorts stably). -/
def value_counts (l : List String) : List (String × Nat) :=
  (l.dedup.map (fun k => (k, l.count k))).insertionSort descNat

/-- app.py lines 364-365: Role rows restricted to the filtered project ids. -/
def restrictRoles (roles : List Role) (ids : List Nat) : List Role :=
  roles.filter (fun r => ids.contains r.projectId)

/-- app.py line 371: `roles_filtered["Role"].value_counts().head(10)`. -/
def role_counts (roles : List Role) (ids : List Nat) : List (String × Nat) :=
  (value_counts ((restrictRoles roles ids).filterMap Role.role)).take 10

/-- app.py line 376: `roles_filtered["CompanyName"].value_counts().head(10)`. -/
def company_counts (roles : List Role) (ids : List Nat) :
    List (String × Nat) :=
  (value_counts ((restrictRoles roles ids).filterMap Role.companyName)).take 10

/-- app.py lines 382-383: Product rows restricted to the filtered ids. -/
def restrictProducts (prods : List Product) (ids : List Nat) : List Product :=
  prods.filter (fun r => ids.contains r.projectId)

/-- app.py line 385: `products_filtered.groupby("Product")["Quantity"].sum()
.sort_values(ascending=False).head(15)` — group keys sorted ascending by
`groupby`, then the table re-sorted descending by the summed quantity. -/
def prod_stats (prods : List Product) (ids : List Nat) : List (String × ℚ) :=
  (((((restrictProducts prods ids).filterMap Product.product).dedup.insertionSort
      strLe).map
    (fun k => (k, (((restrictProducts prods ids).filter
      (fun r => r.product == some k)).map Product.quantity).sum))).insertionSort
        descQ).take 15

theorem take_length_le {α : Type} (l : List α) (n : Nat) :
    (l.take n).length ≤ n := by
  rw [List.length_take]
  exact min_le_left _ _

theorem sorted_take {α : Type} {R : α → α → Prop} {l : List α}
    (h : List.Sorted R l) (n : Nat) : List.Sorted R (l.take n) :=
  h.sublist (List.take_sublist n l)

/-- C6 (amended): each top-N view returns at most N rows (10/10/15), ordered
descending by the ranked metric. The tie order among equal metric values is
NOT the first-seen order of the normalized collection in general: the product
view pre-sorts its group keys alphabetically (`groupby(sort=True)`), and
pandas `sort_values` uses an unstable sort, so no first-seen-tie guarantee
exists. -/
theorem C6_topn (roles : List Role) (prods : List Product) (ids : List Nat) :
    (role_counts roles ids).length ≤ 10 ∧
      List.Sorted descNat (role_counts roles ids) ∧
      (company_counts roles ids).length ≤ 10 ∧
      List.Sorted descNat (company_counts roles ids) ∧
      (prod_stats prods ids).length ≤ 15 ∧
      List.Sorted descQ (prod_stats prods ids) :=
  ⟨take_length_le _ _,
   sorted_take (List.sorted_insertionSort _ _) 10,
   take_length_le _ _,
   sorted_take (List.sorted_insertionSort _ _) 10,
   take_length_le _ _,
   sorted_take (List.sorted_insertionSort _ _) 15⟩

/-- Demo products for the C6 counterexample: equal quantity sums, `"Zebra"`
first-seen before `"Apple"`. -/
def demoProdZ : Product := ⟨1, some "Zebra", 5⟩

def demoProdA : Product := ⟨1, some "Apple", 5⟩

/-- C6 counterexample: both products have the same summed quantity and
`"Zebra"` is first-seen before `"Apple"` in the collection, yet the top-15
view lists `"Apple"` first — the alphabetical `groupby` key order, not the
first-seen order, decides ties, refuting the stable-first-seen-tie claim. -/
theorem C6_counterexample :
    (prod_stats [demoProdZ, demoProdA] [1]).map Prod.fst = ["Apple", "Zebra"] ∧
      [demoProdZ, demoProdA].filterMap Product.product = ["Zebra", "Apple"] ∧
      demoProdZ.quantity = demoProdA.quantity := by
  refine ⟨?_, by decide, by decide⟩
  have h1 : (((restrictProducts [demoProdZ, demoProdA] [1]).filterMap
      Product.product).dedup.insertionSort strLe) = ["Apple", "Zebra"] := by
    decide
  have h2 : (restrictProducts [demoProdZ, demoProdA] [1]).filter
      (fun r => r.product == some "Apple") = [demoProdA] := by decide
  have h3 : (restrictProducts [demoProdZ, demoProdA] [1]).filter
      (fun r => r.product == some "Zebra") = [demoProdZ] := by decide
  simp only [prod_stats, h1, List.map_cons, List.map_nil, h2, h3]
  norm_num [demoProdZ, demoProdA, List.insertionSort, List.orderedInsert,
    descQ]

/-- The `sort_values("EventDate")` comparison: dates ascending, null dates
(`NaT`) last (`na_position="last"`). -/
def eventLeB (a b : Event) : Bool :=
  match a.eventDate, b.eventDate with
  | some x, some y => decide (x ≤ y)
  | some _, none => true
  | none, some _ => false
  | none, none => true

def eventLe (a b : Event) : Prop := eventLeB a b = true

instance : DecidableRel eventLe :=
  fun a b => inferInstanceAs (Decidable (eventLeB a b = true))

/-- The cross-entity detail bundle assembled by the drill-down dialog. -/
structure DetailBundle where
  proj : Project
  roles : List Role
  products : List Product
  events : List Event
  deriving DecidableEq

/-- app.py lines 295-338 (`show_project_details`): the project record is
looked up in `df_projects` — the FULL collection, not the filtered view —
via `df_projects[df_projects["New_ProjectId"] == project_id].iloc[0]`;
`none` models the `IndexError` raised by `.iloc[0]` on an empty selection.
Roles/products/events are sliced by id (empty when the collection is
absent), events sorted ascending by date with nulls last. -/
def show_project_details (df_projects : List Project)
    (df_roles : Option (List Role)) (df_products : Option (List Product))
    (df_events : Option (List Event)) (project_id : Nat) :
    Option DetailBundle :=
  ((df_projects.filter (fun p => p.projectId == project_id)).head?).map
    (fun proj =>
      { proj := proj
        roles := (df_roles.getD []).filter
          (fun r => r.projectId == project_id)
        products := (df_products.getD []).filter
          (fun r => r.projectId == project_id)
        events := ((df_events.getD []).filter
          (fun e => e.projectId == project_id)).insertionSort eventLe })

/-- C4 (amended): the drill-down resolver fails (an `IndexError` from
`.iloc[0]`, modelled as `none`) exactly when the requested id occurs nowhere
in the FULL Project collection; the lookup ignores the filtered view, so an
id that was filtered out but exists in the full collection still resolves. -/
theorem C4_drilldown (full : List Project) (roles : Option (List Role))
    (prods : Option (List Product)) (evts : Option (List Event)) (id : Nat) :
    show_project_details full roles prods evts id = none ↔
      ∀ p ∈ full, p.projectId ≠ id := by
  simp [show_project_details, List.filter_eq_nil_iff]

/-- C4 counterexample: with the sector filter active the filtered view is
`[demoProject1]` (id 1 only), yet drilling down on id 2 — absent from that
view — succeeds, because the code resolves against the full collection; the
claimed NotFound failure does not occur. -/
theorem C4_counterexample :
    applyFilters { FilterSpec.inactive with sectors := ["Water"] } none
        [demoProject1, demoProject2] = [demoProject1] ∧
      demoProject1.projectId ≠ 2 ∧
      (show_project_details [demoProject1, demoProject2] none none none
        2).isSome = true := by
  refine ⟨by decide, by decide, by decide⟩

/-- C9: per-value coercion failures degrade to the documented defaults and
never abort the load: the loaders are total and length-preserving, an
unparseable monetary or `Quantity` cell becomes `0` (the result column is
non-nullable), and an unparseable `EventDate` cell becomes `none`. -/
theorem C9_coercion_defaults (rows : List RawProjectRow)
    (r : RawProjectRow) (q : RawProductRow) (e : RawEventRow)
    (hr : r.netRaw = RawCell.unparseable)
    (hq : q.quantityRaw = RawCell.unparseable)
    (he : e.dateRaw = RawCell.unparseable) :
    (load_projects rows).length = rows.length ∧
    (loadProjectRow r).netValue = 0 ∧
    (loadProductRow q).quantity = 0 ∧
    (loadEventRow e).eventDate = none := by
  refine ⟨List.length_map _ _, ?_, ?_, ?_⟩
  · simp [loadProjectRow, clean_money, to_numeric_coerce, fillna_zero, hr]
  · simp [loadProductRow, clean_money, to_numeric_coerce, fillna_zero, hq]
  · simp [loadEventRow, to_datetime_coerce, he]

/-- Concrete instantiation of `C9_coercion_defaults`: a one-row load with
every coercible cell unparseable. -/
theorem C9_coercion_defaults_witness :
    (load_projects [⟨1, some "P", none, none, none, .unparseable, .unparseable,
        .unparseable⟩]).length = 1 ∧
    (loadProjectRow ⟨1, some "P", none, none, none, .unparseable, .unparseable,
        .unparseable⟩).netValue = 0 ∧
    (loadProductRow ⟨1, some "Pipe", .unparseable⟩).quantity = 0 ∧
    (loadEventRow ⟨1, .unparseable, some "Award"⟩).eventDate = none :=
  C9_coercion_defaults _ _ _ _ rfl rfl rfl

end Meed
